import Mathlib

set_option maxRecDepth 4000

/-!
Verification of the DashApp radiation dashboard (src/app.py).

The computational core of the app is embedded shallowly:

* exact numeric values (dose catalog, dose axis, LNT and threshold risk
  curves) are embedded over `ℚ`; every Python float literal in the source
  (0.01, 0.04, 0.1, ...) denotes an exact decimal constant there, and the
  `ℚ` development models the ideal real arithmetic of the formulas;
* the calculator callback `update_dose` is additionally embedded with
  faithful IEEE-754 binary64 arithmetic (`roundB64`, `fpAdd`, `fpMul`),
  because some claims are about the program's floating-point results;
* the hormesis curve uses `Real.exp` and is embedded over `ℝ`;
* the Dash layout tree is embedded as an inductive `Html` type recording
  component ids and component kinds, so that claims about which input
  widgets exist in the layout can be settled.
-/

namespace DashApp

/-! ## Dose catalog (src/app.py lines 13-22)

`radiation_sources` is a Python dict literal; dicts preserve insertion
order, so it is embedded as an ordered association list. -/

/-- The radiation exposure catalog, in millisieverts (src/app.py:13-22). -/
def radiation_sources : List (String × ℚ) :=
  [ ("Background Radiation (Annual Avg)", 3.0),
    ("Chest X-ray", 0.1),
    ("Dental X-ray", 0.005),
    ("Mammogram", 0.4),
    ("CT Scan (Abdomen)", 8.0),
    ("Flight (NYC to LA)", 0.04),
    ("Smoking (1 pack/day, Annual)", 70.0),
    ("Fukushima Evacuation Zone (Annual)", 12.0) ]

/-! ## Dose axis and risk curves (src/app.py lines 27-37)

`dose_values = np.linspace(0, 100, 100)`: 100 evenly spaced samples from
0 to 100 inclusive, i.e. sample i is `100 * i / 99`. -/

/-- The dose axis: `np.linspace(0, 100, 100)` (src/app.py:27). -/
def dose_values : List ℚ :=
  (List.range 100).map (fun i : ℕ => 100 * (i : ℚ) / 99)

/-- LNT risk curve: `lnt_risk = dose_values * 0.01` (src/app.py:30),
a numpy broadcast, i.e. a point-wise map over the axis. -/
def lnt_risk : List ℚ := dose_values.map (fun d => d * 0.01)

/-- The LNT model as a point-wise function of one dose. -/
def lntPt (d : ℚ) : ℚ := d * 0.01

/-- Threshold constant: `threshold_dose = 10` (src/app.py:33). -/
def threshold_dose : ℚ := 10

/-- Threshold risk curve:
`np.where(dose_values < threshold_dose, 0, (dose_values - threshold_dose) * 0.01)`
(src/app.py:34), a point-wise selection over the axis. -/
def threshold_risk : List ℚ :=
  dose_values.map (fun d => if d < threshold_dose then 0 else (d - threshold_dose) * 0.01)

/-- The threshold model as a point-wise function of one dose. -/
def thresholdPt (d : ℚ) : ℚ :=
  if d < threshold_dose then 0 else (d - threshold_dose) * 0.01

/-! ## IEEE-754 binary64 arithmetic

The calculator callback runs on Python floats (binary64).  A binary64
value is modelled by the exact rational it denotes; `roundB64` is
round-to-nearest, ties-to-even, on the normal range (which covers every
quantity the program computes).  The exponent is located by a
fuel-bounded structural search so that every function evaluates inside
`decide`. -/

/-- Floor-based binary logarithm for `1 ≤ a`: the number of halvings
before the value drops below 2 (fuel-bounded recursion, written with
`Nat.rec` so that it unfolds lazily under kernel reduction). -/
def log2Up (fuel : ℕ) : ℚ → ℕ :=
  Nat.rec (motive := fun _ => ℚ → ℕ)
    (fun _ => 0)
    (fun _ ih a => if a < 2 then 0 else ih (a / 2) + 1)
    fuel

/-- For `0 < a < 1`: the number of doublings needed to reach at least 1
(fuel-bounded recursion via `Nat.rec`). -/
def log2Down (fuel : ℕ) : ℚ → ℕ :=
  Nat.rec (motive := fun _ => ℚ → ℕ)
    (fun _ => 0)
    (fun _ ih a => if 1 ≤ a then 0 else ih (a * 2) + 1)
    fuel

/-- Integer power of two as a rational, via kernel-friendly `Nat.pow`. -/
def pow2 (k : ℤ) : ℚ :=
  if 0 ≤ k then ((2 ^ k.toNat : ℕ) : ℚ) else ((2 ^ (-k).toNat : ℕ) : ℚ)⁻¹

/-- Binary exponent of a positive rational: the `e` with `2^e ≤ a < 2^(e+1)`.
Fuel 1100 exceeds the binary64 exponent range. -/
def binExp (a : ℚ) : ℤ :=
  if 1 ≤ a then (log2Up 1100 a : ℤ) else -(log2Down 1100 a : ℤ)

/-- Round a rational to the nearest integer, ties to even. -/
def roundHalfEven (y : ℚ) : ℤ :=
  let n := ⌊y⌋
  let r := y - (n : ℚ)
  if r < 1 / 2 then n
  else if 1 / 2 < r then n + 1
  else if n % 2 = 0 then n else n + 1

/-- Round a rational to the nearest IEEE-754 binary64 value (round to
nearest, ties to even), returned as the exact rational that the binary64
value denotes. -/
def roundB64 (x : ℚ) : ℚ :=
  if x = 0 then 0
  else
    let a := |x|
    let e : ℤ := binExp a
    let m : ℤ := roundHalfEven (a * pow2 (52 - e))
    let r : ℚ := (m : ℚ) * pow2 (e - 52)
    if x < 0 then -r else r

/-- Binary64 addition: exact sum, then one rounding. -/
def fpAdd (x y : ℚ) : ℚ := roundB64 (x + y)

/-- Binary64 multiplication: exact product, then one rounding. -/
def fpMul (x y : ℚ) : ℚ := roundB64 (x * y)

/-- The binary64 value denoted by the Python literal `0.04`. -/
def lit004 : ℚ := roundB64 (4 / 100)

/-- The binary64 value denoted by the Python literal `0.1`. -/
def lit01 : ℚ := roundB64 (1 / 10)

/-- The numeric value `total_dose = (flights * 0.04) + (xrays * 0.1)`
computed by `update_dose` (src/app.py:262) in the program's binary64
arithmetic. -/
def total_dose (flights xrays : ℚ) : ℚ :=
  fpAdd (fpMul flights lit004) (fpMul xrays lit01)

/-! ## The calculator callback string (src/app.py lines 261-263)

Python fixed-point formatting of a float with 2 decimals rounds the
exact value of the binary64 argument to two decimal places with
round-half-even, then prints sign, integer part and two fractional
digits. -/

/-- Two-decimal-digit fragment, zero padded. -/
def twoDigits (n : ℕ) : String :=
  (if n < 10 then "0" else "") ++ toString n

/-- Fixed-point formatting with two decimals of the exact value of a
binary64 number (round-half-even, as Python does). -/
def formatFixed2 (q : ℚ) : String :=
  let n : ℤ := roundHalfEven (q * 100)
  let a : ℕ := n.natAbs
  (if q < 0 then "-" else "") ++ toString (a / 100) ++ "." ++ twoDigits (a % 100)

/-- The fixed leading text of the callback's returned f-string. -/
def doseMessageIntro : String :=
  "Your estimated annual radiation dose from selected activities: "

/-- The calculator callback `update_dose` (src/app.py:261-263): computes
`total_dose = (flights * 0.04) + (xrays * 0.1)` and returns the message
string with the total displayed to two decimal places. -/
def update_dose (flights xrays : ℚ) : String :=
  let t := total_dose flights xrays
  doseMessageIntro ++ formatFixed2 t ++ " mSv"

/-! ## The layout (src/app.py lines 40-254)

`app.layout` is embedded as a component tree recording, for each node,
its kind, its component id when one is set, its href for anchors, and
bounds for slider widgets.  Static text bodies are presentation data
with no behavioral contract (spec section 1) and are not recorded. -/

/-- A Dash/HTML component tree, as far as the layout claims need it. -/
inductive Html where
  | div (id : Option String) (children : List Html)
  | heading
  | par
  | anchor (href : String)
  | graph
  | details (children : List Html)
  | summary
  | ulist (children : List Html)
  | litem (child : Html)
  | iframe (src : String)
  | slider (id : String) (minVal maxVal : ℤ)

mutual

/-- All component ids occurring in a layout tree, in document order. -/
def componentIds : Html → List String
  | .div oi cs => oi.toList ++ componentIdsList cs
  | .details cs => componentIdsList cs
  | .ulist cs => componentIdsList cs
  | .litem c => componentIds c
  | .slider i _ _ => [i]
  | _ => []

/-- Component ids of a list of trees. -/
def componentIdsList : List Html → List String
  | [] => []
  | c :: cs => componentIds c ++ componentIdsList cs

end

mutual

/-- All slider widgets occurring in a layout tree: id and bounds. -/
def sliderSpecs : Html → List (String × ℤ × ℤ)
  | .div _ cs => sliderSpecsList cs
  | .details cs => sliderSpecsList cs
  | .ulist cs => sliderSpecsList cs
  | .litem c => sliderSpecs c
  | .slider i lo hi => [(i, lo, hi)]
  | _ => []

/-- Slider widgets of a list of trees. -/
def sliderSpecsList : List Html → List (String × ℤ × ℤ)
  | [] => []
  | c :: cs => sliderSpecs c ++ sliderSpecsList cs

end

mutual

/-- All anchor hrefs occurring in a layout tree. -/
def anchorHrefs : Html → List String
  | .div _ cs => anchorHrefsList cs
  | .details cs => anchorHrefsList cs
  | .ulist cs => anchorHrefsList cs
  | .litem c => anchorHrefs c
  | .anchor h => [h]
  | _ => []

/-- Anchor hrefs of a list of trees. -/
def anchorHrefsList : List Html → List String
  | [] => []
  | c :: cs => anchorHrefs c ++ anchorHrefsList cs

end

/-- The app layout tree (src/app.py:40-254).  The outer Div holds the
headings, the navigation bar, the content sections (each a Div with an
id), the references, the conclusion and the video.  There is no
calculator section: no slider widget and no element with id
total-dose-output or calculator occurs anywhere in it. -/
def appLayout : Html :=
  .div none
    [ .heading,
      .heading,
      .div none
        [ .anchor ("#exposure"), .anchor ("#models"), .anchor ("#calculator"),
          .anchor ("#faq"), .anchor ("#conclusion") ],
      .div (some ("introduction")) [.heading, .par, .par, .par, .par, .par, .par],
      .div (some ("exposure")) [.heading, .graph, .par],
      .div (some ("models")) [.heading, .graph, .par, .par],
      .div (some ("faq"))
        [ .heading,
          .details [.summary, .par, .par],
          .details [.summary, .par, .par, .par],
          .details [.summary, .par, .par, .par, .par, .par, .par],
          .details [.summary, .par, .par, .par, .par, .par],
          .details [.summary, .par, .par, .par],
          .details [.summary, .par, .par],
          .details [.summary, .par, .par] ],
      .div (some ("references"))
        [ .heading,
          .ulist
            [ .litem (.anchor ("https://hps.org/hpspublications/radiationfactsheets.html")),
              .litem (.anchor ("https://www.icrp.org/page.asp?id=5")),
              .litem (.anchor ("https://ncrponline.org/")),
              .litem (.anchor ("https://nap.nationalacademies.org/resource/11340/beir_vii_final.pdf")),
              .litem (.anchor ("https://www.nih.gov/")),
              .litem (.anchor ("https://www.nrc.gov/")),
              .litem (.anchor ("https://www.cdc.gov/")) ] ],
      .div (some ("conclusion")) [.heading, .par, .par, .par],
      .div (some ("video")) [.heading, .iframe ("https://www.youtube.com/embed/uzqsnxZBLNE")] ]

/-- The callback wiring (src/app.py:257-260): the output component id and
property. -/
def callbackOutput : String × String := ("total-dose-output", "children")

/-- The callback wiring (src/app.py:257-260): the input component ids and
properties. -/
def callbackInputs : List (String × String) :=
  [("flight-slider", "value"), ("xray-slider", "value")]

/-! ## Real-valued curves

The hormesis curve uses the exponential function, so it lives over `ℝ`;
the threshold curve is also given a real-valued point function so that
continuity at the threshold can be stated. -/

/-- The hormesis model as a point-wise function of one dose:
`-0.005 * np.exp(-dose / 20) + dose * 0.005` (src/app.py:37). -/
noncomputable def hormesisPt (d : ℝ) : ℝ :=
  -0.005 * Real.exp (-d / 20) + d * 0.005

/-- Hormesis risk curve (src/app.py:37): the point-wise image of the dose
axis. -/
noncomputable def hormesis_risk : List ℝ :=
  dose_values.map (fun d => -0.005 * Real.exp (-(d : ℝ) / 20) + (d : ℝ) * 0.005)

/-- The threshold model as a real-valued point function (src/app.py:34). -/
noncomputable def thresholdRealPt (d : ℝ) : ℝ :=
  if d < 10 then 0 else (d - 10) * 0.01

end DashApp


namespace DashApp

/-! ## Helper lemmas -/

/-- The dose axis as a map over the threshold point function. -/
lemma forall2_threshold :
    List.Forall₂ (fun d r => r = thresholdPt d) dose_values threshold_risk := by
  unfold threshold_risk
  rw [List.forall₂_map_right_iff]
  exact List.forall₂_same.2 (fun d _ => rfl)

/-- The real threshold point function agrees with a max expression. -/
lemma thresholdRealPt_eq_max :
    thresholdRealPt = fun d => max ((d - 10) * 0.01) 0 := by
  funext d
  unfold thresholdRealPt
  rcases lt_or_le d 10 with h | h
  · rw [if_pos h]
    exact (max_eq_right (by nlinarith)).symm
  · rw [if_neg (not_lt.2 h)]
    exact (max_eq_left (by nlinarith)).symm

/-- The real threshold point function is continuous everywhere. -/
lemma thresholdRealPt_continuous : Continuous thresholdRealPt := by
  rw [thresholdRealPt_eq_max]
  exact ((continuous_id.sub continuous_const).mul continuous_const).max continuous_const

/-- Element formula for the dose axis. -/
lemma dose_values_getElem {i : ℕ} (h : i < 100) :
    dose_values[i]? = some (100 * (i : ℚ) / 99) := by
  unfold dose_values
  rw [List.getElem?_map, List.getElem?_range h]
  rfl

/-- Every sample on the dose axis is non-negative. -/
lemma mem_dose_values_nonneg : ∀ d ∈ dose_values, 0 ≤ d := by
  intro d hd
  unfold dose_values at hd
  rcases List.mem_map.1 hd with ⟨i, _, rfl⟩
  positivity

/-- The point-wise comparison of the two linear models. -/
lemma thresholdPt_le_lntPt {d : ℚ} (hd : 0 ≤ d) : thresholdPt d ≤ lntPt d := by
  unfold thresholdPt lntPt threshold_dose
  split_ifs with h
  · positivity
  · exact mul_le_mul_of_nonneg_right (by linarith) (by norm_num)

end DashApp

namespace DashApp

/-! ## Claims -/

unseal Rat.ofScientific Rat.mul Rat.inv Rat.add Rat.sub in
/-- C1: for every numeric pair of inputs the callback returns the fixed
message template around the total formatted to two decimal places, where
the total is the unrounded value flights * 0.04 + xrays * 0.1 computed in
binary64; the two-decimal rounding happens only in the displayed string
(at (5, 1) the displayed digits are 0.30 while the stored numeric total
is not 3/10). -/
theorem update_dose_formats_unrounded_total :
    (∀ f x : ℚ, update_dose f x =
      doseMessageIntro ++ formatFixed2 (fpAdd (fpMul f lit004) (fpMul x lit01)) ++ " mSv") ∧
    formatFixed2 (total_dose 5 1) = "0.30" ∧
    total_dose 5 1 ≠ 3 / 10 :=
  ⟨fun _ _ => rfl, by decide, by decide⟩

unseal Rat.ofScientific Rat.mul Rat.inv Rat.add Rat.sub in
/-- C2 counterexample: in the program's binary64 arithmetic the total for
inputs (5, 1) is not exactly 0.30: rounding 5 * 0.04 + 1 * 0.1 gives the
double 0.30000000000000004. -/
theorem calculator_five_one_not_exactly_030 : total_dose 5 1 ≠ 3 / 10 := by decide

unseal Rat.ofScientific Rat.mul Rat.inv Rat.add Rat.sub in
/-- C2 amended: the totals for (0, 0) and (50, 10) are exactly 0.0 and
3.0 even in binary64; the total for (5, 1) is the double
1351079888211149 / 2^52 = 0.30000000000000004, equal to 0.30 only within
floating-point tolerance (well below 1e-9). -/
theorem calculator_values_binary64 :
    total_dose 0 0 = 0 ∧
    total_dose 50 10 = 3 ∧
    total_dose 5 1 = Rat.divInt 1351079888211149 4503599627370496 ∧
    |total_dose 5 1 - 3 / 10| < 1 / 1000000000 := by decide

unseal Rat.ofScientific Rat.mul Rat.inv Rat.add Rat.sub in
/-- C3: the layout contains no slider widget at all and none of the
component ids the callback is wired to (flight-slider, xray-slider,
total-dose-output) occurs in it; the navigation bar even links to a
calculator anchor for which no component exists.  The calculator itself
enforces no range: a negative input flows through the formula and yields
a negative total. -/
theorem calculator_widgets_missing_from_layout :
    sliderSpecs appLayout = [] ∧
    componentIds appLayout =
      ["introduction", "exposure", "models", "faq", "references", "conclusion", "video"] ∧
    callbackInputs.map Prod.fst = ["flight-slider", "xray-slider"] ∧
    callbackOutput.1 = "total-dose-output" ∧
    "flight-slider" ∉ componentIds appLayout ∧
    "xray-slider" ∉ componentIds appLayout ∧
    "total-dose-output" ∉ componentIds appLayout ∧
    "#calculator" ∈ anchorHrefs appLayout ∧
    "calculator" ∉ componentIds appLayout ∧
    total_dose (-5) 0 < 0 := by decide

/-- C4: the threshold model yields 0 below dose 10 and (dose - 10) * 0.01
at or above 10; its value at exactly 10 is 0; the risk curve is the
point-wise image of the dose axis; and the real-valued point function is
continuous at the threshold. -/
theorem threshold_model_piecewise :
    (∀ d : ℚ, d < 10 → thresholdPt d = 0) ∧
    (∀ d : ℚ, 10 ≤ d → thresholdPt d = (d - 10) * 0.01) ∧
    thresholdPt 10 = 0 ∧
    List.Forall₂ (fun d r => r = thresholdPt d) dose_values threshold_risk ∧
    ContinuousAt thresholdRealPt 10 := by
  refine ⟨?_, ?_, ?_, forall2_threshold, thresholdRealPt_continuous.continuousAt⟩
  · intro d h
    unfold thresholdPt threshold_dose
    exact if_pos h
  · intro d h
    unfold thresholdPt threshold_dose
    rw [if_neg (not_lt.2 h)]
  · unfold thresholdPt threshold_dose
    norm_num

/-- Witness for C4 at the concrete doses 3 and 25. -/
theorem threshold_model_piecewise_witness :
    ((3:ℚ) < 10 ∧ thresholdPt 3 = 0) ∧
    ((10:ℚ) ≤ 25 ∧ thresholdPt 25 = (25 - 10) * 0.01) :=
  ⟨⟨by decide, threshold_model_piecewise.1 3 (by decide)⟩,
   ⟨by decide, threshold_model_piecewise.2.1 25 (by decide)⟩⟩

/-- C5: the LNT model yields exactly dose * 0.01 for every non-negative
dose, and the risk curve is the point-wise image of the dose axis, same
length, in input order. -/
theorem lnt_model_pointwise :
    lnt_risk.length = dose_values.length ∧
    List.Forall₂ (fun d r => r = lntPt d) dose_values lnt_risk ∧
    (∀ d : ℚ, 0 ≤ d → lntPt d = d * 0.01) := by
  refine ⟨by simp [lnt_risk], ?_, fun d _ => rfl⟩
  unfold lnt_risk
  rw [List.forall₂_map_right_iff]
  exact List.forall₂_same.2 (fun d _ => rfl)

/-- Witness for C5 at the concrete dose 7. -/
theorem lnt_model_pointwise_witness : (0:ℚ) ≤ 7 ∧ lntPt 7 = 7 * 0.01 :=
  ⟨by decide, lnt_model_pointwise.2.2 7 (by decide)⟩

/-- C6: the hormesis model yields -0.005 * e^(-d/20) + d * 0.005 at every
dose of the input sequence, point-wise in input order, and its value at
dose 0 is exactly -0.005. -/
theorem hormesis_model_values :
    (∀ d : ℝ, hormesisPt d = -0.005 * Real.exp (-d / 20) + d * 0.005) ∧
    List.Forall₂ (fun d r => r = hormesisPt (d : ℝ)) dose_values hormesis_risk ∧
    hormesisPt 0 = -0.005 := by
  refine ⟨fun _ => rfl, ?_, ?_⟩
  · unfold hormesis_risk
    rw [List.forall₂_map_right_iff]
    exact List.forall₂_same.2 (fun d _ => rfl)
  · unfold hormesisPt
    norm_num [Real.exp_zero]

/-- C7: the dose axis has exactly 100 samples, its i-th sample is
100 * i / 99, its first sample is 0, its last sample is 100, and
consecutive samples differ by the constant step 100 / 99. -/
theorem dose_axis_samples :
    dose_values.length = 100 ∧
    (∀ i : ℕ, i < 100 → dose_values[i]? = some (100 * (i : ℚ) / 99)) ∧
    dose_values[0]? = some 0 ∧
    dose_values[99]? = some 100 ∧
    (∀ i : ℕ, i + 1 < 100 →
      (dose_values[i + 1]?).getD 0 - (dose_values[i]?).getD 0 = 100 / 99) := by
  refine ⟨by simp [dose_values], fun i h => dose_values_getElem h, ?_, ?_, ?_⟩
  · rw [dose_values_getElem (by norm_num)]
    norm_num
  · rw [dose_values_getElem (by norm_num)]
    norm_num
  · intro i h
    rw [dose_values_getElem h, dose_values_getElem (by omega : i < 100)]
    rw [Option.getD_some, Option.getD_some]
    push_cast
    ring

/-- Witness for C7 at the concrete indices 42 and 0. -/
theorem dose_axis_samples_witness :
    ((42:ℕ) < 100 ∧ dose_values[42]? = some (100 * ((42:ℕ) : ℚ) / 99)) ∧
    ((0:ℕ) + 1 < 100 ∧ (dose_values[0 + 1]?).getD 0 - (dose_values[0]?).getD 0 = 100 / 99) :=
  ⟨⟨by decide, dose_axis_samples.2.1 42 (by decide)⟩,
   ⟨by decide, dose_axis_samples.2.2.2.2 0 (by decide)⟩⟩

unseal Rat.ofScientific Rat.mul Rat.inv Rat.add Rat.sub in
/-- C8: the dose catalog has exactly 8 entries, pairwise distinct names,
and the expected name and dose value in each position. -/
theorem dose_catalog_contents :
    radiation_sources.length = 8 ∧
    (radiation_sources.map Prod.fst).Nodup ∧
    radiation_sources.map Prod.fst =
      ["Background Radiation (Annual Avg)", "Chest X-ray", "Dental X-ray", "Mammogram",
       "CT Scan (Abdomen)", "Flight (NYC to LA)", "Smoking (1 pack/day, Annual)",
       "Fukushima Evacuation Zone (Annual)"] ∧
    radiation_sources.map Prod.snd = [3, 1/10, 1/200, 2/5, 8, 1/25, 70, 12] := by decide

unseal Rat.ofScientific Rat.mul Rat.inv Rat.add Rat.sub in
/-- C9: the calculator is a total function returning the same formula's
result for every pair of rational inputs, with no rejection or clamping:
negative inputs yield a negative total and absurdly large inputs yield an
out-of-range but well-defined total. -/
theorem calculator_total_function :
    (∀ f x : ℚ, update_dose f x =
      doseMessageIntro ++ formatFixed2 (fpAdd (fpMul f lit004) (fpMul x lit01)) ++ " mSv") ∧
    total_dose (-5) 0 < 0 ∧
    3 < total_dose 1000000 1000000 :=
  ⟨fun _ _ => rfl, by decide, by decide⟩

/-- C10: on every non-negative dose the threshold model's risk is at most
the LNT model's risk, and over the shared axis the threshold curve is
point-wise at most the LNT curve. -/
theorem threshold_le_lnt :
    (∀ d : ℚ, 0 ≤ d → thresholdPt d ≤ lntPt d) ∧
    List.Forall₂ (· ≤ ·) threshold_risk lnt_risk := by
  refine ⟨fun d hd => thresholdPt_le_lntPt hd, ?_⟩
  unfold threshold_risk lnt_risk
  rw [List.forall₂_map_right_iff, List.forall₂_map_left_iff]
  refine List.forall₂_same.2 (fun d hd => ?_)
  exact thresholdPt_le_lntPt (mem_dose_values_nonneg d hd)

/-- Witness for C10 at the concrete dose 3. -/
theorem threshold_le_lnt_witness : (0:ℚ) ≤ 3 ∧ thresholdPt 3 ≤ lntPt 3 :=
  ⟨by decide, threshold_le_lnt.1 3 (by decide)⟩

end DashApp
